import Mathlib

/-!
Verification development for the NPHW2 two-player puzzle-game backend
(`lobby_server.py`, `game_server.py`, `common/config.py`).

The Python sources are shallowly embedded: the process-wide dictionaries
`g_rooms` and `g_client_sessions` become association lists, each request
handler becomes a pure function from a lobby state to a new lobby state
plus the list of messages it sends, and the game server's loop becomes a
step function over explicit state.  Python locals that can be read before
assignment (`winner` in `game_loop`, `game_seed` in `main`) are embedded
as `PyVar`, whose `unbound` constructor makes the `UnboundLocalError`
paths explicit.
-/

namespace NPHW2

section AssocList

variable {κ α : Type} [DecidableEq κ]

/-- Lookup in an association list: model of Python `dict.get`. -/
def alookup : List (κ × α) → κ → Option α
  | [], _ => none
  | (k, v) :: rest, k2 => if k = k2 then some v else alookup rest k2

/-- Remove a key: model of `dict.pop` / `del dict[k]`. -/
def aerase (l : List (κ × α)) (k : κ) : List (κ × α) :=
  l.filter fun p => decide (p.1 ≠ k)

/-- Set a key: model of `dict[k] = v`. -/
def aset (l : List (κ × α)) (k : κ) (v : α) : List (κ × α) :=
  (k, v) :: aerase l k

theorem alookup_mem {l : List (κ × α)} {k : κ} {v : α}
    (h : alookup l k = some v) : (k, v) ∈ l := by
  induction l with
  | nil => simp [alookup] at h
  | cons p rest ih =>
    obtain ⟨pk, pv⟩ := p
    simp only [alookup] at h
    split at h
    · rename_i heq
      cases h
      exact heq ▸ List.mem_cons_self _ _
    · exact List.mem_cons_of_mem _ (ih h)

theorem mem_aerase {l : List (κ × α)} {k : κ} {p : κ × α}
    (h : p ∈ aerase l k) : p ∈ l :=
  (List.mem_filter.mp h).1

theorem alookup_aerase_self (l : List (κ × α)) (k : κ) :
    alookup (aerase l k) k = none := by
  induction l with
  | nil => rfl
  | cons p rest ih =>
    obtain ⟨pk, pv⟩ := p
    by_cases hpk : pk = k
    · simpa [aerase, hpk] using ih
    · simpa [aerase, alookup, hpk] using ih

theorem alookup_aerase_ne {l : List (κ × α)} {k k2 : κ} (h : k2 ≠ k) :
    alookup (aerase l k) k2 = alookup l k2 := by
  induction l with
  | nil => rfl
  | cons p rest ih =>
    obtain ⟨pk, pv⟩ := p
    by_cases hpk : pk = k
    · subst hpk
      simpa [aerase, alookup, Ne.symm h] using ih
    · by_cases hk2 : pk = k2
      · subst hk2
        simp [aerase, alookup, hpk]
      · simpa [aerase, alookup, hpk, hk2] using ih

theorem alookup_aset_self (l : List (κ × α)) (k : κ) (v : α) :
    alookup (aset l k v) k = some v := by
  simp [aset, alookup]

theorem alookup_aset_ne {l : List (κ × α)} {k k2 : κ} (v : α) (h : k2 ≠ k) :
    alookup (aset l k v) k2 = alookup l k2 := by
  simp [aset, alookup, Ne.symm h, alookup_aerase_ne h]

end AssocList

/-! ### Lobby data model (`lobby_server.py`) -/

/-- A session's presence, the structured form of the status strings
`"online"` / `"in_room_<id>"` stored in `g_client_sessions[u]["status"]`.
Every write of that field in `lobby_server.py` stores one of these two
shapes, so the `int(...)`-parse of the suffix always succeeds and is
embedded as the `inRoom` payload. -/
inductive Presence
  | online
  | inRoom (room_id : Nat)
  deriving Repr, DecidableEq

/-- The `"status"` string of a room: `"idle"` or `"playing"`. -/
inductive RoomStatus
  | idle
  | playing
  deriving Repr, DecidableEq

/-- One entry of `g_rooms`. -/
structure Room where
  name : String
  host : String
  players : List String
  status : RoomStatus
  deriving Repr, DecidableEq

/-- Messages the lobby sends to clients (`send_to_client` payloads). -/
inductive LMsg
  | ok (reason : String)
  | err (reason : String)
  | roomCreated (room_id : Nat) (name : String)
  | roomUpdate (room_id : Nat) (players : List String) (hostName : String)
  | promotedToHost (room_id : Nat)
  | gameStart (hostAddr : String) (port : Nat)
  | inviteReceived (from_user : String) (room_id : Nat)
  deriving Repr, DecidableEq

/-- The lobby's shared mutable state: `g_client_sessions` (only the
`status` field matters to the control flow; the socket is represented by
the username keying the entry), `g_rooms`, and `g_room_counter`. -/
structure LobbyState where
  sessions : List (String × Presence)
  rooms : List (Nat × Room)
  roomCounter : Nat
  deriving Repr, DecidableEq

/-- Messages produced by a handler: `(recipient username, payload)`.
The requesting client's own socket is addressed by its username. -/
abbrev Sends := List (String × LMsg)

/-- `handle_create_room` (lobby_server.py, lines 297-334). -/
def handle_create_room (st : LobbyState) (username : String) (room_name : String) :
    LobbyState × Sends :=
  match alookup st.sessions username with
  | none => (st, [(username, .err "session_not_found")])
  | some s =>
    if s ≠ .online then
      (st, [(username, .err "already_in_a_room")])
    else
      let room_id := st.roomCounter
      let rooms2 := aset st.rooms room_id
        { name := room_name, host := username, players := [username], status := .idle }
      let sessions2 := aset st.sessions username (.inRoom room_id)
      ({ sessions := sessions2, rooms := rooms2, roomCounter := room_id + 1 },
       [(username, .roomCreated room_id room_name)])

/-- `handle_join_room` (lobby_server.py, lines 336-392).  `room_id_arg`
is `none` when `int(data.get("room_id"))` raises.  The session-status
write at line 376 presupposes the user is logged in (true for every
call site); on a missing key it is embedded as an insert. -/
def handle_join_room (st : LobbyState) (username : String) (room_id_arg : Option Nat) :
    LobbyState × Sends :=
  match room_id_arg with
  | none => (st, [(username, .err "invalid_room_id")])
  | some room_id =>
    let notOnline : Bool := match alookup st.sessions username with
      | some s => decide (s ≠ .online)
      | none => false
    if notOnline then
      (st, [(username, .err "already_in_a_room")])
    else
      match alookup st.rooms room_id with
      | none => (st, [(username, .err "room_not_found")])
      | some room =>
        if room.status ≠ .idle then
          (st, [(username, .err "room_is_playing")])
        else if 2 ≤ room.players.length then
          (st, [(username, .err "room_is_full")])
        else
          let all_players := room.players ++ [username]
          let rooms2 := aset st.rooms room_id ({ room with players := all_players })
          let sessions2 := aset st.sessions username (.inRoom room_id)
          let msg := LMsg.roomUpdate room_id all_players room.host
          ({ sessions := sessions2, rooms := rooms2, roomCounter := st.roomCounter },
           all_players.filterMap fun p =>
             match alookup sessions2 p with
             | some _ => some (p, msg)
             | none => none)

/-- `handle_logout` (lobby_server.py, lines 191-265): session pop, room
removal, emptiness deletion, host promotion, notifications. -/
def handle_logout (st : LobbyState) (username : String) : LobbyState × Sends :=
  match alookup st.sessions username with
  | none => (st, [])
  | some status =>
    let sessions2 := aerase st.sessions username
    match status with
    | .online => ({ st with sessions := sessions2 }, [(username, .ok "logout_successful")])
    | .inRoom room_id =>
      match alookup st.rooms room_id with
      | none => ({ st with sessions := sessions2 }, [(username, .ok "logout_successful")])
      | some room =>
        let players2 := room.players.erase username
        match players2 with
        | [] =>
          ({ st with sessions := sessions2, rooms := aerase st.rooms room_id },
           [(username, .ok "logout_successful")])
        | p0 :: rest =>
          if room.host = username then
            let room2 := { room with host := p0, players := p0 :: rest }
            let promoteMsg : Sends :=
              match alookup sessions2 p0 with
              | some _ => [(p0, .promotedToHost room_id)]
              | none => []
            ({ st with sessions := sessions2, rooms := aset st.rooms room_id room2 },
             promoteMsg ++ [(username, .ok "logout_successful")])
          else
            let room2 := { room with players := p0 :: rest }
            ({ st with sessions := sessions2, rooms := aset st.rooms room_id room2 },
             [(username, .ok "logout_successful")])

/-- The scan loop of `find_free_port` (lobby_server.py, lines 79-92):
`while port < 65535: try bind; on success return port; else port += 1`.
The fuel argument is the number of ports left below 65535.
`bindable p = true` embeds "binding to port `p` succeeds". -/
def findFreePortAux (bindable : Nat → Bool) : Nat → Nat → Option Nat
  | 0, _ => none
  | fuel + 1, port => if bindable port then some port else findFreePortAux bindable fuel (port + 1)

/-- `find_free_port(start_port)`; `none` embeds the `RuntimeError` raised
when every port in `[start_port, 65535)` is taken. -/
def find_free_port (bindable : Nat → Bool) (start_port : Nat) : Option Nat :=
  findFreePortAux bindable (65535 - start_port) start_port

/-- `handle_start_game` (lobby_server.py, lines 536-609).  `bindable`
embeds which ports accept a bind, `spawn_ok` whether `subprocess.Popen`
succeeds; `base_port` is `config.GAME_SERVER_START_PORT` and `lobby_host`
is `config.LOBBY_HOST`.  Any exception in the try block (no free port,
spawn failure) lands in the `server_failed_to_start_game` reply. -/
def handle_start_game (st : LobbyState) (username : String)
    (bindable : Nat → Bool) (spawn_ok : Bool) (base_port : Nat) (lobby_host : String) :
    LobbyState × Sends :=
  let room_id_opt : Option Nat := match alookup st.sessions username with
    | some (.inRoom rid) => some rid
    | _ => none
  match room_id_opt with
  | none => (st, [(username, .err "not_in_a_room")])
  | some room_id =>
    match alookup st.rooms room_id with
    | none => (st, [(username, .err "room_not_found")])
    | some room =>
      if room.host ≠ username then
        (st, [(username, .err "not_room_host")])
      else if room.players.length ≠ 2 then
        (st, [(username, .err "room_not_full")])
      else
        match find_free_port bindable base_port, spawn_ok with
        | some game_port, true =>
          let msg := LMsg.gameStart lobby_host game_port
          let player1 := room.players.getD 0 ""
          let player2 := room.players.getD 1 ""
          let sends : Sends :=
            (match alookup st.sessions player1 with
             | some _ => [(player1, msg)] | none => []) ++
            (match alookup st.sessions player2 with
             | some _ => [(player2, msg)] | none => [])
          let room2 := { room with status := .playing }
          ({ st with rooms := aset st.rooms room_id room2 }, sends)
        | _, _ => (st, [(username, .err "server_failed_to_start_game")])

/-- The spec's room invariant, decidably: players non-empty, host a
member, at most two players. -/
def roomInvB (r : Room) : Bool :=
  decide (r.players ≠ []) && decide (r.host ∈ r.players) && decide (r.players.length ≤ 2)

/-- The invariant over the whole Room Registry. -/
def roomsInvB (rs : List (Nat × Room)) : Bool :=
  rs.all fun p => roomInvB p.2

theorem roomInvB_iff {r : Room} :
    roomInvB r = true ↔ r.players ≠ [] ∧ r.host ∈ r.players ∧ r.players.length ≤ 2 := by
  simp [roomInvB, and_assoc]

theorem roomsInvB_iff {rs : List (Nat × Room)} :
    roomsInvB rs = true ↔ ∀ p ∈ rs, roomInvB p.2 = true := by
  simp [roomsInvB]

theorem roomsInvB_lookup {rs : List (Nat × Room)} {rid : Nat} {r : Room}
    (hinv : roomsInvB rs = true) (h : alookup rs rid = some r) : roomInvB r = true :=
  roomsInvB_iff.mp hinv _ (alookup_mem h)

theorem roomsInvB_aerase {rs : List (Nat × Room)} {rid : Nat}
    (hinv : roomsInvB rs = true) : roomsInvB (aerase rs rid) = true :=
  roomsInvB_iff.mpr fun p hp => roomsInvB_iff.mp hinv p (mem_aerase hp)

theorem roomsInvB_aset {rs : List (Nat × Room)} {rid : Nat} {r : Room}
    (hinv : roomsInvB rs = true) (hr : roomInvB r = true) :
    roomsInvB (aset rs rid r) = true := by
  refine roomsInvB_iff.mpr fun p hp => ?_
  rcases List.mem_cons.mp hp with h | h
  · rw [h]; exact hr
  · exact roomsInvB_iff.mp hinv p (mem_aerase h)

/-! ### Lock-versus-external-call structure of the lobby handlers

For the concurrency claim, each handler is abstracted to the sequence of
lock acquisitions/releases (`with g_session_lock:` / `with g_room_lock:`),
persistence round-trips (`forward_to_db`) and client sends
(`send_to_client`) it performs, with data-dependent branch outcomes as
Boolean parameters.  The event lists below follow the source line by
line. -/

/-- One lock or I/O event inside a lobby handler. -/
inductive LEv
  | acqS | relS   -- acquire / release `g_session_lock`
  | acqR | relR   -- acquire / release `g_room_lock`
  | db            -- `forward_to_db` round-trip
  | send          -- `send_to_client`
  deriving Repr, DecidableEq

/-- `true` iff every `db` and every `send` event happens while neither
lock is held.  `s`/`r` track whether the session/room lock is held. -/
def extCallsLockFree : Bool → Bool → List LEv → Bool
  | _, _, [] => true
  | _, r, .acqS :: rest => extCallsLockFree true r rest
  | _, r, .relS :: rest => extCallsLockFree false r rest
  | s, _, .acqR :: rest => extCallsLockFree s true rest
  | s, _, .relR :: rest => extCallsLockFree s false rest
  | s, r, .db :: rest => !s && !r && extCallsLockFree s r rest
  | s, r, .send :: rest => !s && !r && extCallsLockFree s r rest

/-- `true` iff every `db` event (persistence round-trip only) happens
while neither lock is held. -/
def dbCallsLockFree : Bool → Bool → List LEv → Bool
  | _, _, [] => true
  | _, r, .acqS :: rest => dbCallsLockFree true r rest
  | _, r, .relS :: rest => dbCallsLockFree false r rest
  | s, _, .acqR :: rest => dbCallsLockFree s true rest
  | s, _, .relR :: rest => dbCallsLockFree s false rest
  | s, r, .db :: rest => !s && !r && dbCallsLockFree s r rest
  | s, r, .send :: rest => dbCallsLockFree s r rest

/-- `handle_login` (lines 128-189): missing fields → reply; duplicate
login → reply sent inside the session lock; otherwise DB query outside
any lock, then on success insert under the lock, DB status update,
reply. -/
def loginEvents (fieldsOk alreadyIn dbOk : Bool) : List LEv :=
  if !fieldsOk then [.send]
  else if alreadyIn then [.acqS, .send, .relS]
  else [.acqS, .relS, .db] ++ (if dbOk then [.acqS, .relS, .db, .send] else [.send])

/-- `handle_logout` (lines 191-265): session pop under the lock, DB
status update, room cleanup under the room lock, promotion notification
sent inside the session lock, final confirmation. -/
def logoutEvents (hasSession wasInRoom promoted : Bool) : List LEv :=
  [.acqS, .relS] ++
  (if hasSession then
    [.db] ++ (if wasInRoom then [.acqR, .relR] ++ (if promoted then [.acqS, .send, .relS] else [])
              else []) ++ [.send]
   else [])

/-- `handle_create_room` (lines 297-334): both error replies are sent
inside the session lock; success reply after all blocks. -/
def createRoomEvents (hasSession isOnline : Bool) : List LEv :=
  if !hasSession then [.acqS, .send, .relS]
  else if !isOnline then [.acqS, .send, .relS]
  else [.acqS, .relS, .acqR, .relR, .acqS, .relS, .send]

/-- `handle_join_room` (lines 336-392): the busy reply is sent inside the
session lock, room-validation replies inside the room lock, and the
ROOM_UPDATE broadcast (`n_members` sends) inside the session lock. -/
def joinRoomEvents (parseOk : Bool) (notOnline roomMissing roomPlaying roomFull : Bool)
    (n_members : Nat) : List LEv :=
  if !parseOk then [.send]
  else if notOnline then [.acqS, .send, .relS]
  else
    [.acqS, .relS, .acqR] ++
    (if roomMissing then [.send, .relR]
     else if roomPlaying then [.send, .relR]
     else if roomFull then [.send, .relR]
     else [.relR, .acqS, .relS, .acqS] ++ List.replicate n_members .send ++ [.relS])

/-- `handle_invite` (lines 395-446): validation replies inside the
session lock; the INVITE_RECEIVED push and the ack outside. -/
def inviteEvents (noTarget selfTarget notInRoom targetMissing targetBusy sockLost : Bool) :
    List LEv :=
  if noTarget then [.send]
  else if selfTarget then [.send]
  else
    [.acqS] ++
    (if notInRoom then [.send, .relS]
     else if targetMissing then [.send, .relS]
     else if targetBusy then [.send, .relS]
     else if sockLost then [.relS, .send]
     else [.relS, .send, .send])

/-- `handle_start_game` (lines 536-609): validation replies and the
whole launch (including the failure reply and the two GAME_START sends,
the latter additionally under the session lock) happen inside the room
lock. -/
def startGameEvents (inRoom roomMissing notHost notFull launchFail p1Conn p2Conn : Bool) :
    List LEv :=
  [.acqS, .relS] ++
  (if !inRoom then [.send]
   else
    [.acqR] ++
    (if roomMissing then [.send, .relR]
     else if notHost then [.send, .relR]
     else if notFull then [.send, .relR]
     else if launchFail then [.send, .relR]
     else [.acqS] ++ (if p1Conn then [.send] else []) ++ (if p2Conn then [.send] else []) ++
          [.relS, .relR]))

/-- The concurrency sentence of the spec, as stated: across every lobby
operation, no registry mutex is held across any external call
(persistence round-trip or client send). -/
def noLockAcrossExternalCall : Prop :=
  (∀ a b c : Bool, extCallsLockFree false false (loginEvents a b c) = true) ∧
  (∀ a b c : Bool, extCallsLockFree false false (logoutEvents a b c) = true) ∧
  (∀ a b : Bool, extCallsLockFree false false (createRoomEvents a b) = true) ∧
  (∀ a b c d e : Bool, ∀ n : Nat,
    extCallsLockFree false false (joinRoomEvents a b c d e n) = true) ∧
  (∀ a b c d e f : Bool, extCallsLockFree false false (inviteEvents a b c d e f) = true) ∧
  (∀ a b c d e f g : Bool, extCallsLockFree false false (startGameEvents a b c d e f g) = true)

/-! ### Game service (`game_server.py`) -/

/-- A Python local variable: `unbound` means it has not been assigned
yet, so reading it raises `UnboundLocalError`. -/
inductive PyVar (α : Type)
  | unbound
  | bound (v : α)
  deriving Repr, DecidableEq

/-- Modelled from the spec: the per-seat Board Engine state.
`common/game_rules.py` (`TetrisGame`) is not under `src/`; the spec
describes the engine as a deterministic simulation seeded at
construction, with per-seat score, cleared-line count and game-over
flag.  `board` is the rest of the simulation state, of an abstract type,
since the spec treats the piece physics as an external component. -/
structure GState (β : Type) where
  seed : Nat
  score : Nat
  lines_cleared : Nat
  game_over : Bool
  board : β
  deriving Repr, DecidableEq

/-- Modelled from the spec: the Board Engine's operation set (movement
commands, gravity tick, seeded start), an injectable component per the
spec.  The game-loop theorems are proved for every such engine. -/
structure BoardOps (β : Type) where
  start : Nat → β
  move_left : GState β → GState β
  move_right : GState β → GState β
  rotate : GState β → GState β
  soft_drop : GState β → GState β
  hard_drop : GState β → GState β
  tick : GState β → GState β

/-- Modelled from the spec: `TetrisGame(seed)` — construction of one
Board Engine from a seed. -/
def TetrisGame_init {β : Type} (ops : BoardOps β) (seed : Nat) : GState β :=
  { seed := seed, score := 0, lines_cleared := 0, game_over := false, board := ops.start seed }

/-- `process_input` (game_server.py, lines 103-114). -/
def process_input {β : Type} (ops : BoardOps β) (g : GState β) (action : String) : GState β :=
  if action = "MOVE_LEFT" then ops.move_left g
  else if action = "MOVE_RIGHT" then ops.move_right g
  else if action = "ROTATE" then ops.rotate g
  else if action = "SOFT_DROP" then ops.soft_drop g
  else if action = "HARD_DROP" then ops.hard_drop g
  else g

/-- Observable events of the game loop: an input applied to a seat's
engine, a gravity tick, and a snapshot sent to a connection.  The
snapshot payload is the pair of engine states it serializes; one
`broadcast_state` call emits the same payload to every connection. -/
inductive GEv (β : Type)
  | applied (player_id : Nat) (action : String)
  | ticked
  | snapshotSent (conn : Nat) (p1_state p2_state : GState β)
  deriving Repr, DecidableEq

/-- Result of the input-drain phase of one loop iteration. -/
structure DrainResult (β : Type) where
  p1 : GState β
  p2 : GState β
  winner : PyVar (Option String)
  trace : List (GEv β)
  unprocessed : List (Nat × String)
  deriving Repr, DecidableEq

/-- The input-drain phase of one `game_loop` iteration (game_server.py,
lines 174-194): each queued `(player_id, action)` is applied to that
seat's engine; a `"DISCONNECT"` marker sets the local `winner` to the
other seat, forces both game-over flags, and breaks — entries after the
marker stay unprocessed. -/
def drain_inputs {β : Type} (ops : BoardOps β) :
    GState β → GState β → PyVar (Option String) → List (Nat × String) → DrainResult β
  | p1, p2, w, [] => ⟨p1, p2, w, [], []⟩
  | p1, p2, w, (player_id, action) :: rest =>
    if action = "DISCONNECT" then
      ⟨{ p1 with game_over := true }, { p2 with game_over := true },
       .bound (some (if player_id = 0 then "P2" else "P1")), [], rest⟩
    else if player_id = 0 then
      let r := drain_inputs ops (process_input ops p1 action) p2 w rest
      { r with trace := .applied 0 action :: r.trace }
    else if player_id = 1 then
      let r := drain_inputs ops p1 (process_input ops p2 action) w rest
      { r with trace := .applied 1 action :: r.trace }
    else
      drain_inputs ops p1 p2 w rest

/-- Python truthiness of the bound `winner` value (a string or `None`). -/
def pyTruthy : Option String → Bool
  | none => false
  | some s => decide (s ≠ "")

/-- Outcome of one iteration of the `while True` loop in `game_loop`. -/
inductive IterResult (β : Type)
  /-- reading the local `winner` raised `UnboundLocalError`. -/
  | uncaught (trace : List (GEv β))
  /-- the loop breaks with `winner` bound to this value. -/
  | ended (winner : Option String) (p1 p2 : GState β) (trace : List (GEv β))
      (unprocessed : List (Nat × String))
  /-- the loop sleeps and iterates again. -/
  | next (p1 p2 : GState β) (winner : PyVar (Option String)) (trace : List (GEv β))
  deriving Repr, DecidableEq

/-- One iteration of `game_loop` (game_server.py, lines 173-222):
drain the queue, evaluate `if winner: break` (line 196 — an unbound
`winner` raises here), run the gravity tick and the post-tick
`broadcast_state` when the interval has elapsed (`tick_due`), then check
the end condition (lines 209-219).  `clients` holds the connection ids
`broadcast_state` iterates over (`none` for a falsy entry). -/
def game_loop_iter {β : Type} (ops : BoardOps β) (clients : List (Option Nat))
    (p1 p2 : GState β) (w : PyVar (Option String))
    (batch : List (Nat × String)) (tick_due : Bool) : IterResult β :=
  let d := drain_inputs ops p1 p2 w batch
  match d.winner with
  | .unbound => .uncaught d.trace
  | .bound wv =>
    if pyTruthy wv then
      .ended wv d.p1 d.p2 d.trace d.unprocessed
    else
      let q1 := if tick_due then ops.tick d.p1 else d.p1
      let q2 := if tick_due then ops.tick d.p2 else d.p2
      let tickTrace : List (GEv β) :=
        if tick_due then
          .ticked :: clients.filterMap (fun c => c.map fun conn => .snapshotSent conn q1 q2)
        else []
      if q1.game_over || q2.game_over then
        let wv2 :=
          if wv = none then
            if q1.game_over then some "P2"
            else if q2.game_over then some "P1"
            else wv
          else wv
        .ended wv2 q1 q2 (d.trace ++ tickTrace) d.unprocessed
      else
        .next q1 q2 (.bound wv) (d.trace ++ tickTrace)

/-- Per-seat results entry of the GameLog and of GAME_OVER. -/
structure PlayerResult where
  userId : String
  score : Nat
  lines : Nat
  deriving Repr, DecidableEq

/-- The settlement record built in `handle_game_end`. -/
structure GameLog where
  matchid : String
  users : List String
  results : List PlayerResult
  winner : Option String
  deriving Repr, DecidableEq

/-- Messages the game server sends to its clients. -/
inductive GMsg
  | welcome (role : String) (seed : Nat)
  | gameOver (winner : Option String) (p1_results p2_results : PlayerResult)
  deriving Repr, DecidableEq

/-- External effects of settlement: one `GameLog.create` request to the
persistence service, and sends to connections. -/
inductive GSEv
  | dbCreate (log : GameLog)
  | sent (conn : Nat) (msg : GMsg)
  deriving Repr, DecidableEq

/-- The GAME_OVER send loop (game_server.py, lines 156-162): one
`protocol.send_msg` attempt per non-`none` connection, in list order.
`send_ok conn = false` embeds a raising send (e.g. the disconnected
seat's socket, already closed by its receiver thread at line 71): the
single `try` wraps the WHOLE `for` loop, so the exception aborts every
remaining send; it is then only logged. -/
def gameOverSendLoop (send_ok : Nat → Bool) (msg : GMsg) : List (Option Nat) → List GSEv
  | [] => []
  | none :: rest => gameOverSendLoop send_ok msg rest
  | some conn :: rest =>
    if send_ok conn then GSEv.sent conn msg :: gameOverSendLoop send_ok msg rest
    else []

/-- `handle_game_end` (game_server.py, lines 116-162): builds the
GameLog, issues one `GameLog.create` (its response `db_ok` is only
logged, lines 144-147), then runs the GAME_OVER send loop — whose first
raising send aborts the remaining sends.  `t_now` is
`int(time.time())`. -/
def handle_game_end {β : Type} (clients : List (Option Nat)) (p1 p2 : GState β)
    (winner : Option String) (db_ok : Bool) (send_ok : Nat → Bool) (t_now : Nat) :
    List GSEv :=
  let p1_results : PlayerResult := ⟨"Player1", p1.score, p1.lines_cleared⟩
  let p2_results : PlayerResult := ⟨"Player2", p2.score, p2.lines_cleared⟩
  let game_log : GameLog :=
    ⟨"match_" ++ toString t_now, ["Player1", "Player2"], [p1_results, p2_results], winner⟩
  GSEv.dbCreate game_log ::
    gameOverSendLoop send_ok (GMsg.gameOver winner p1_results p2_results) clients

/-- Outcome of running `game_loop` against a schedule. -/
inductive LoopOutcome (β : Type)
  /-- an `UnboundLocalError` escaped the loop; no settlement happens. -/
  | crashed (trace : List (GEv β))
  /-- the loop broke and `handle_game_end` ran, producing `endEvents`. -/
  | settled (winner : Option String) (trace : List (GEv β)) (endEvents : List GSEv)
  /-- the schedule ran out with the loop still going. -/
  | running (p1 p2 : GState β) (winner : PyVar (Option String)) (trace : List (GEv β))
  deriving Repr, DecidableEq

/-- Prefix an already-emitted trace onto an outcome. -/
def LoopOutcome.withTrace {β : Type} (tr : List (GEv β)) : LoopOutcome β → LoopOutcome β
  | .crashed t => .crashed (tr ++ t)
  | .settled w t e => .settled w (tr ++ t) e
  | .running p1 p2 w t => .running p1 p2 w (tr ++ t)

/-- `game_loop` (game_server.py, lines 165-224) against a schedule: one
entry per iteration giving the queue contents drained that round and
whether the gravity interval had elapsed.  On loop exit the single
trailing `handle_game_end` call (line 224) runs. -/
def game_loop_run {β : Type} (ops : BoardOps β) (clients : List (Option Nat))
    (db_ok : Bool) (send_ok : Nat → Bool) (t_now : Nat) :
    GState β → GState β → PyVar (Option String) →
    List (List (Nat × String) × Bool) → LoopOutcome β
  | p1, p2, w, [] => .running p1 p2 w []
  | p1, p2, w, (batch, tick_due) :: sched =>
    match game_loop_iter ops clients p1 p2 w batch tick_due with
    | .uncaught tr => .crashed tr
    | .ended wv p1a p2a tr _ =>
      .settled wv tr (handle_game_end clients p1a p2a wv db_ok send_ok t_now)
    | .next p1a p2a wa tr =>
      (game_loop_run ops clients db_ok send_ok t_now p1a p2a wa sched).withTrace tr

/-- `game_loop` exactly as entered from `main` (line 317): the local
`winner` has no initialisation before the `while`, so it starts
unbound. -/
def game_loop {β : Type} (ops : BoardOps β) (clients : List (Option Nat))
    (db_ok : Bool) (send_ok : Nat → Bool) (t_now : Nat) (p1 p2 : GState β)
    (sched : List (List (Nat × String) × Bool)) : LoopOutcome β :=
  game_loop_run ops clients db_ok send_ok t_now p1 p2 .unbound sched

/-- The WELCOME message built for the `player_id`-th accepted connection
(game_server.py, lines 284-291), reading the local `game_seed`. -/
def welcome_msg (player_id : Nat) (seedVar : PyVar Nat) : Except String GMsg :=
  match seedVar with
  | .unbound => .error "UnboundLocalError: game_seed"
  | .bound s => .ok (GMsg.welcome (if player_id = 0 then "P1" else "P2") s)

/-- The accept loop of `main` (game_server.py, lines 276-306): connection
ids in arrival order get player ids 0, 1, …, and each is sent a WELCOME
carrying `seedVar`'s value. -/
def accept_players (seedVar : PyVar Nat) : Nat → List Nat → Except String (List (Nat × GMsg))
  | _, [] => .ok []
  | player_id, conn :: rest =>
    match welcome_msg player_id seedVar with
    | .error e => .error e
    | .ok m =>
      match accept_players seedVar (player_id + 1) rest with
      | .error e => .error e
      | .ok ms => .ok ((conn, m) :: ms)

/-- The connection/setup phase of `main` (game_server.py, lines 274-314)
as written: WELCOME messages are built while the local `game_seed` is
still unassigned — it is assigned (`random.randint`, embedded as
`rand_seed`) only after both players have connected, and only then are
the two engines constructed from it. -/
def game_server_main {β : Type} (ops : BoardOps β) (conns : List Nat) (rand_seed : Nat) :
    Except String (List (Nat × GMsg) × GState β × GState β) :=
  match accept_players PyVar.unbound 0 conns with
  | .error e => .error e
  | .ok ws =>
    let game_seed := rand_seed
    .ok (ws, TetrisGame_init ops game_seed, TetrisGame_init ops game_seed)

/-- Modelled from the spec: the hand-off of §4.3 — seat P1 to the first
connection, P2 to the second, WELCOME{seat,seed} to each, both engines
constructed from the same seed.  This is `game_server_main` with the
one slip removed: `game_seed` assigned before the accept loop. -/
def game_server_main_intended {β : Type} (ops : BoardOps β) (conns : List Nat)
    (rand_seed : Nat) : Except String (List (Nat × GMsg) × GState β × GState β) :=
  match accept_players (.bound rand_seed) 0 conns with
  | .error e => .error e
  | .ok ws => .ok (ws, TetrisGame_init ops rand_seed, TetrisGame_init ops rand_seed)

/-- Is this event the `GameLog.create` request? -/
def isDbCreate : GSEv → Bool
  | .dbCreate _ => true
  | _ => false

/-- Number of `GameLog.create` requests in an effect list. -/
def countDbCreate (evs : List GSEv) : Nat :=
  (evs.filter isDbCreate).length

/-- Is this event a GAME_OVER send to connection `conn`? -/
def isGameOverTo (conn : Nat) : GSEv → Bool
  | .sent c (GMsg.gameOver _ _ _) => decide (c = conn)
  | _ => false

/-- Number of GAME_OVER messages sent to connection `conn`. -/
def countGameOverTo (evs : List GSEv) (conn : Nat) : Nat :=
  (evs.filter (isGameOverTo conn)).length

/-- The `applied` events the drain phase emits for a batch containing no
disconnect marker. -/
def inputEvents {β : Type} (batch : List (Nat × String)) : List (GEv β) :=
  batch.filterMap fun x =>
    if x.1 = 0 then some (.applied 0 x.2)
    else if x.1 = 1 then some (.applied 1 x.2)
    else none

/-- A concrete Board Engine instance, used to evaluate the development
on closed inputs: the abstract board is a counter of operations. -/
def natOps : BoardOps Nat where
  start := fun seed => seed
  move_left := fun g => { g with board := g.board + 1 }
  move_right := fun g => { g with board := g.board + 1 }
  rotate := fun g => { g with board := g.board + 1 }
  soft_drop := fun g => { g with board := g.board + 1 }
  hard_drop := fun g => { g with board := g.board + 1 }
  tick := fun g => { g with board := g.board + 1 }

/-! ### Concrete fixtures for evaluating the theorems on closed inputs -/

/-- Fixture: an idle one-player room hosted by alice, bob online. -/
def stIdle : LobbyState :=
  { sessions := [("alice", .inRoom 100), ("bob", .online)],
    rooms := [(100, { name := "Alpha", host := "alice", players := ["alice"], status := .idle })],
    roomCounter := 101 }

/-- Fixture: a full room already in status playing, both members in it. -/
def stPlaying : LobbyState :=
  { sessions := [("alice", .inRoom 100), ("bob", .inRoom 100)],
    rooms := [(100,
      { name := "Alpha", host := "alice", players := ["alice", "bob"], status := .playing })],
    roomCounter := 101 }

/-- Fixture: a full idle room, both members in it. -/
def stFull : LobbyState :=
  { sessions := [("alice", .inRoom 100), ("bob", .inRoom 100)],
    rooms := [(100,
      { name := "Alpha", host := "alice", players := ["alice", "bob"], status := .idle })],
    roomCounter := 101 }

/-- Fixture: a freshly initialised engine pair seed. -/
def gInit : GState Nat := TetrisGame_init natOps 5

/-- Fixture: an engine state whose game-over flag is set. -/
def gOver : GState Nat := { gInit with game_over := true }

/-! ## Theorems -/

theorem filterMap_all_some {α γ : Type} (f : α → Option γ) (g : α → γ) :
    ∀ l : List α, (∀ p ∈ l, f p = some (g p)) → l.filterMap f = l.map g := by
  intro l
  induction l with
  | nil => intro _; rfl
  | cons a t ih =>
    intro h
    simp only [List.filterMap_cons, h a (List.mem_cons_self a t), List.map_cons]
    rw [ih fun p hp => h p (List.mem_cons_of_mem a hp)]

/-- C1: for every room in the Room Registry, at every observable
instant, `players` is non-empty, `host ∈ players`, and
`players.length ≤ 2`; `create_room`, `join_room` and the logout/leave
cleanup each preserve this, and a room whose players list becomes empty
is deleted from the registry. -/
theorem room_registry_invariant_preserved
    (st : LobbyState) (u nm : String) (arg : Option Nat)
    (hinv : roomsInvB st.rooms = true) :
    roomsInvB (handle_create_room st u nm).1.rooms = true ∧
    roomsInvB (handle_join_room st u arg).1.rooms = true ∧
    roomsInvB (handle_logout st u).1.rooms = true ∧
    (∀ rid room, alookup st.sessions u = some (.inRoom rid) →
      alookup st.rooms rid = some room → room.players.erase u = [] →
      alookup (handle_logout st u).1.rooms rid = none) := by
  refine ⟨?_, ?_, ?_, ?_⟩
  · unfold handle_create_room
    cases h : alookup st.sessions u with
    | none => exact hinv
    | some s =>
      dsimp only
      split
      · exact hinv
      · exact roomsInvB_aset hinv (by simp [roomInvB])
  · unfold handle_join_room
    cases arg with
    | none => exact hinv
    | some rid =>
      dsimp only
      split
      · exact hinv
      · cases hroom : alookup st.rooms rid with
        | none => exact hinv
        | some room =>
          dsimp only
          split
          · exact hinv
          · split
            · exact hinv
            · rename_i hfull
              refine roomsInvB_aset hinv ?_
              have hr := roomInvB_iff.mp (roomsInvB_lookup hinv hroom)
              rw [roomInvB_iff]
              refine ⟨by simp, List.mem_append_left _ hr.2.1, ?_⟩
              simp only [List.length_append, List.length_cons, List.length_nil]
              omega
  · unfold handle_logout
    cases hs : alookup st.sessions u with
    | none => exact hinv
    | some status =>
      cases status with
      | online => exact hinv
      | inRoom rid =>
        dsimp only
        cases hroom : alookup st.rooms rid with
        | none => exact hinv
        | some room =>
          dsimp only
          cases hps : room.players.erase u with
          | nil => exact roomsInvB_aerase hinv
          | cons p0 rest =>
            dsimp only
            have hr := roomInvB_iff.mp (roomsInvB_lookup hinv hroom)
            have hlen : (p0 :: rest).length ≤ 2 := by
              rw [← hps]
              exact le_trans (List.Sublist.length_le (List.erase_sublist _ _)) hr.2.2
            split
            · exact roomsInvB_aset hinv (roomInvB_iff.mpr ⟨by simp, by simp, hlen⟩)
            · rename_i hhost
              refine roomsInvB_aset hinv (roomInvB_iff.mpr ⟨by simp, ?_, hlen⟩)
              rw [← hps]
              exact (List.mem_erase_of_ne hhost).mpr hr.2.1
  · intro rid room hsess hroom hempty
    unfold handle_logout
    rw [hsess]
    dsimp only
    rw [hroom]
    dsimp only
    rw [hempty]
    exact alookup_aerase_self _ _

/-- Closed-input check of the room-invariant theorem, on `stIdle` with
leaver alice (alone in room 100, so the deletion conjunct fires). -/
theorem room_registry_invariant_preserved_witness :
    roomsInvB (handle_create_room stIdle "alice" "Beta").1.rooms = true ∧
    roomsInvB (handle_join_room stIdle "alice" (some 100)).1.rooms = true ∧
    roomsInvB (handle_logout stIdle "alice").1.rooms = true ∧
    (∀ rid room, alookup stIdle.sessions "alice" = some (.inRoom rid) →
      alookup stIdle.rooms rid = some room → room.players.erase "alice" = [] →
      alookup (handle_logout stIdle "alice").1.rooms rid = none) :=
  room_registry_invariant_preserved stIdle "alice" "Beta" (some 100) (by decide)

/-- C7: when a user leaves a room (explicit leave, logout and disconnect
all run `handle_logout`): a non-host leaver leaves the room's host
unchanged; a host leaver with players remaining promotes the
earliest-joined remaining player — `players[0]` after removal — and the
new host, when it still has a live session, is sent PROMOTED_TO_HOST
out-of-band. -/
theorem leave_room_host_promotion
    (st : LobbyState) (u : String) (rid : Nat) (room : Room) (p0 : String) (rest : List String)
    (hsess : alookup st.sessions u = some (.inRoom rid))
    (hroom : alookup st.rooms rid = some room)
    (hps : room.players.erase u = p0 :: rest) :
    (room.host ≠ u →
      alookup (handle_logout st u).1.rooms rid = some { room with players := p0 :: rest } ∧
      (handle_logout st u).2 = [(u, .ok "logout_successful")]) ∧
    (room.host = u →
      alookup (handle_logout st u).1.rooms rid =
        some { room with host := p0, players := p0 :: rest } ∧
      ((alookup (aerase st.sessions u) p0).isSome = true →
        (handle_logout st u).2 = [(p0, .promotedToHost rid), (u, .ok "logout_successful")])) := by
  unfold handle_logout
  rw [hsess]
  dsimp only
  rw [hroom]
  dsimp only
  rw [hps]
  dsimp only
  constructor
  · intro hhost
    rw [if_neg hhost]
    exact ⟨alookup_aset_self _ _ _, rfl⟩
  · intro hhost
    rw [if_pos hhost]
    refine ⟨alookup_aset_self _ _ _, ?_⟩
    intro hp0
    cases hl : alookup (aerase st.sessions u) p0 with
    | none => rw [hl] at hp0; simp at hp0
    | some q => simp [hl]

/-- Closed-input check of the host-promotion theorem: on `stFull`, host
alice leaving promotes bob and bob is notified. -/
theorem leave_room_host_promotion_witness :
    (({ name := "Alpha", host := "alice", players := ["alice", "bob"],
        status := RoomStatus.idle } : Room).host ≠ "alice" →
      alookup (handle_logout stFull "alice").1.rooms 100 =
        some { name := "Alpha", host := "alice", players := ["bob"], status := .idle } ∧
      (handle_logout stFull "alice").2 = [("alice", .ok "logout_successful")]) ∧
    (({ name := "Alpha", host := "alice", players := ["alice", "bob"],
        status := RoomStatus.idle } : Room).host = "alice" →
      alookup (handle_logout stFull "alice").1.rooms 100 =
        some { name := "Alpha", host := "bob", players := ["bob"], status := .idle } ∧
      ((alookup (aerase stFull.sessions "alice") "bob").isSome = true →
        (handle_logout stFull "alice").2 =
          [("bob", .promotedToHost 100), ("alice", .ok "logout_successful")])) :=
  leave_room_host_promotion stFull "alice" 100
    { name := "Alpha", host := "alice", players := ["alice", "bob"], status := .idle }
    "bob" [] (by decide) (by decide) (by decide)

/-- C8: `join_room` fails — mutating nothing — with `room_not_found`
when the id is absent, `room_is_playing` when the room is not idle,
`room_is_full` at two players, and `already_in_a_room` when the joiner's
presence is not Online (that check runs first); on success it appends
the joiner, sets their presence to InRoom(room_id), and broadcasts
ROOM_UPDATE{room_id, host, players} to every member of the room. -/
theorem join_room_errors_and_success
    (st : LobbyState) (u : String) (rid : Nat) (ps : Presence)
    (hlog : alookup st.sessions u = some ps) :
    (ps ≠ .online →
      handle_join_room st u (some rid) = (st, [(u, .err "already_in_a_room")])) ∧
    (ps = .online → alookup st.rooms rid = none →
      handle_join_room st u (some rid) = (st, [(u, .err "room_not_found")])) ∧
    (∀ room, ps = .online → alookup st.rooms rid = some room → room.status ≠ .idle →
      handle_join_room st u (some rid) = (st, [(u, .err "room_is_playing")])) ∧
    (∀ room, ps = .online → alookup st.rooms rid = some room → room.status = .idle →
      2 ≤ room.players.length →
      handle_join_room st u (some rid) = (st, [(u, .err "room_is_full")])) ∧
    (∀ room, ps = .online → alookup st.rooms rid = some room → room.status = .idle →
      room.players.length < 2 →
      (∀ p ∈ room.players, (alookup st.sessions p).isSome = true) →
      (handle_join_room st u (some rid)).1.sessions = aset st.sessions u (.inRoom rid) ∧
      alookup (handle_join_room st u (some rid)).1.rooms rid =
        some { room with players := room.players ++ [u] } ∧
      (∀ rid2, rid2 ≠ rid →
        alookup (handle_join_room st u (some rid)).1.rooms rid2 = alookup st.rooms rid2) ∧
      (handle_join_room st u (some rid)).2 =
        (room.players ++ [u]).map fun p =>
          (p, LMsg.roomUpdate rid (room.players ++ [u]) room.host)) := by
  refine ⟨?_, ?_, ?_, ?_, ?_⟩
  · intro hps
    unfold handle_join_room
    dsimp only
    rw [hlog]
    simp [hps]
  · intro hps hroom
    subst hps
    unfold handle_join_room
    dsimp only
    rw [hlog, hroom]
    simp
  · intro room hps hroom hidle
    subst hps
    unfold handle_join_room
    dsimp only
    rw [hlog, hroom]
    simp [hidle]
  · intro room hps hroom hidle hfull
    subst hps
    unfold handle_join_room
    dsimp only
    rw [hlog, hroom]
    simp [hidle, hfull]
  · intro room hps hroom hidle hlt hconn
    subst hps
    have hmsgs :
        (room.players ++ [u]).filterMap (fun p =>
          match alookup (aset st.sessions u (.inRoom rid)) p with
          | some _ => some (p, LMsg.roomUpdate rid (room.players ++ [u]) room.host)
          | none => none) =
        (room.players ++ [u]).map fun p =>
          (p, LMsg.roomUpdate rid (room.players ++ [u]) room.host) := by
      refine filterMap_all_some _ _ _ fun p hp => ?_
      by_cases hpu : p = u
      · subst hpu
        rw [alookup_aset_self]
      · rw [alookup_aset_ne _ hpu]
        rcases List.mem_append.mp hp with hmem | hmem
        · cases hl : alookup st.sessions p with
          | none =>
            have hc := hconn p hmem
            rw [hl] at hc
            simp at hc
          | some q => rfl
        · simp at hmem; exact absurd hmem hpu
    unfold handle_join_room
    dsimp only
    rw [hlog]
    dsimp only
    rw [if_neg (by simp)]
    rw [hroom]
    dsimp only
    rw [if_neg (by simp [hidle]), if_neg (by omega)]
    dsimp only
    exact ⟨rfl, alookup_aset_self _ _ _, fun rid2 h2 => alookup_aset_ne _ h2, hmsgs⟩

/-- Closed-input check of the join theorem: bob joining room 100 of
`stIdle` — appended, presence updated, ROOM_UPDATE broadcast to both. -/
theorem join_room_errors_and_success_witness :
    (handle_join_room stIdle "bob" (some 100)).1.sessions =
      aset stIdle.sessions "bob" (.inRoom 100) ∧
    alookup (handle_join_room stIdle "bob" (some 100)).1.rooms 100 =
      some { name := "Alpha", host := "alice", players := ["alice", "bob"],
             status := RoomStatus.idle } ∧
    (∀ rid2, rid2 ≠ 100 →
      alookup (handle_join_room stIdle "bob" (some 100)).1.rooms rid2 =
        alookup stIdle.rooms rid2) ∧
    (handle_join_room stIdle "bob" (some 100)).2 =
      ["alice", "bob"].map fun p => (p, LMsg.roomUpdate 100 ["alice", "bob"] "alice") :=
  (join_room_errors_and_success stIdle "bob" 100 .online (by decide)).2.2.2.2
    { name := "Alpha", host := "alice", players := ["alice"], status := .idle }
    rfl (by decide) (by decide) (by decide) (by decide)

theorem findFreePortAux_spec (bindable : Nat → Bool) :
    ∀ (fuel port p : Nat), findFreePortAux bindable fuel port = some p →
      bindable p = true ∧ port ≤ p ∧ p < port + fuel ∧
      ∀ q, port ≤ q → q < p → bindable q = false := by
  intro fuel
  induction fuel with
  | zero => intro port p h; simp [findFreePortAux] at h
  | succ n ih =>
    intro port p h
    rw [findFreePortAux] at h
    split at h
    · rename_i hb
      cases h
      exact ⟨hb, le_refl _, by omega, fun q hq1 hq2 => absurd hq1 (by omega)⟩
    · rename_i hb
      obtain ⟨h1, h2, h3, h4⟩ := ih (port + 1) p h
      refine ⟨h1, by omega, by omega, fun q hq1 hq2 => ?_⟩
      by_cases hq : q = port
      · subst hq
        simpa using hb
      · exact h4 q (by omega) hq2

/-- `find_free_port` probes upward from the base and returns the least
bindable port below 65535. -/
theorem find_free_port_least (bindable : Nat → Bool) (start_port p : Nat)
    (h : find_free_port bindable start_port = some p) :
    bindable p = true ∧ start_port ≤ p ∧ p < 65535 ∧
      ∀ q, start_port ≤ q → q < p → bindable q = false := by
  obtain ⟨h1, h2, h3, h4⟩ := findFreePortAux_spec bindable _ _ _ h
  exact ⟨h1, h2, by omega, h4⟩

/-- C6 (amended): `start_game` fails with `not_in_a_room`,
`room_not_found`, `not_room_host` or `room_not_full` exactly as claimed,
and on failure to launch (no bindable port, or spawn failure) replies
`server_failed_to_start_game` leaving the room unchanged; on success the
launcher takes the least bindable port upward from the configured base,
marks the room Playing and sends GAME_START{host,port} to both players.
The room's Idle status is, however, not part of the precondition: the
code never checks it (see the counterexample). -/
theorem start_game_launch
    (st : LobbyState) (u : String) (bindable : Nat → Bool) (spawn_ok : Bool)
    (base_port : Nat) (lobby_host : String) :
    ((∀ rid, alookup st.sessions u ≠ some (.inRoom rid)) →
      handle_start_game st u bindable spawn_ok base_port lobby_host =
        (st, [(u, .err "not_in_a_room")])) ∧
    (∀ rid, alookup st.sessions u = some (.inRoom rid) → alookup st.rooms rid = none →
      handle_start_game st u bindable spawn_ok base_port lobby_host =
        (st, [(u, .err "room_not_found")])) ∧
    (∀ rid room, alookup st.sessions u = some (.inRoom rid) →
      alookup st.rooms rid = some room → room.host ≠ u →
      handle_start_game st u bindable spawn_ok base_port lobby_host =
        (st, [(u, .err "not_room_host")])) ∧
    (∀ rid room, alookup st.sessions u = some (.inRoom rid) →
      alookup st.rooms rid = some room → room.host = u → room.players.length ≠ 2 →
      handle_start_game st u bindable spawn_ok base_port lobby_host =
        (st, [(u, .err "room_not_full")])) ∧
    (∀ rid room, alookup st.sessions u = some (.inRoom rid) →
      alookup st.rooms rid = some room → room.host = u → room.players.length = 2 →
      (find_free_port bindable base_port = none ∨ spawn_ok = false) →
      handle_start_game st u bindable spawn_ok base_port lobby_host =
        (st, [(u, .err "server_failed_to_start_game")])) ∧
    (∀ rid room port, alookup st.sessions u = some (.inRoom rid) →
      alookup st.rooms rid = some room → room.host = u → room.players.length = 2 →
      find_free_port bindable base_port = some port → spawn_ok = true →
      (∀ p ∈ room.players, (alookup st.sessions p).isSome = true) →
      (handle_start_game st u bindable spawn_ok base_port lobby_host).1.sessions =
        st.sessions ∧
      alookup (handle_start_game st u bindable spawn_ok base_port lobby_host).1.rooms rid =
        some { room with status := .playing } ∧
      (∀ rid2, rid2 ≠ rid →
        alookup (handle_start_game st u bindable spawn_ok base_port lobby_host).1.rooms rid2 =
          alookup st.rooms rid2) ∧
      (handle_start_game st u bindable spawn_ok base_port lobby_host).2 =
        [(room.players.getD 0 "", .gameStart lobby_host port),
         (room.players.getD 1 "", .gameStart lobby_host port)] ∧
      bindable port = true ∧ base_port ≤ port ∧
      (∀ q, base_port ≤ q → q < port → bindable q = false)) := by
  refine ⟨?_, ?_, ?_, ?_, ?_, ?_⟩
  · intro hno
    unfold handle_start_game
    dsimp only
    cases hs : alookup st.sessions u with
    | none => rfl
    | some ps =>
      cases ps with
      | online => rfl
      | inRoom r => exact absurd hs (hno r)
  · intro rid hsess hroom
    unfold handle_start_game
    dsimp only
    rw [hsess]
    dsimp only
    rw [hroom]
  · intro rid room hsess hroom hhost
    unfold handle_start_game
    dsimp only
    rw [hsess]
    dsimp only
    rw [hroom]
    dsimp only
    rw [if_pos hhost]
  · intro rid room hsess hroom hhost hlen
    unfold handle_start_game
    dsimp only
    rw [hsess]
    dsimp only
    rw [hroom]
    dsimp only
    rw [if_neg (by simp [hhost]), if_pos hlen]
  · intro rid room hsess hroom hhost hlen hfail
    unfold handle_start_game
    dsimp only
    rw [hsess]
    dsimp only
    rw [hroom]
    dsimp only
    rw [if_neg (by simp [hhost]), if_neg (by simp [hlen])]
    rcases hfail with hnone | hspawn
    · cases spawn_ok <;> rw [hnone]
    · subst hspawn
      cases hfp : find_free_port bindable base_port <;> rfl
  · intro rid room port hsess hroom hhost hlen hfp hspawn hconn
    subst hspawn
    obtain ⟨a, b, hab⟩ := List.length_eq_two.mp hlen
    have hmema : a ∈ room.players := by rw [hab]; simp
    have hmemb : b ∈ room.players := by rw [hab]; simp
    have ha := hconn a hmema
    have hb := hconn b hmemb
    unfold handle_start_game
    dsimp only
    rw [hsess]
    dsimp only
    rw [hroom]
    dsimp only
    rw [if_neg (by simp [hhost]), if_neg (by simp [hlen]), hfp]
    dsimp only
    rw [hab]
    have e1 : ([a, b] : List String).getD 0 "" = a := rfl
    have e2 : ([a, b] : List String).getD 1 "" = b := rfl
    rw [e1, e2]
    cases hla : alookup st.sessions a with
    | none => rw [hla] at ha; simp at ha
    | some qa =>
      cases hlb : alookup st.sessions b with
      | none => rw [hlb] at hb; simp at hb
      | some qb =>
        obtain ⟨h1, h2, _, h4⟩ := find_free_port_least bindable base_port port hfp
        exact ⟨rfl, alookup_aset_self _ _ _, fun rid2 hne => alookup_aset_ne _ hne,
          rfl, h1, h2, h4⟩

/-- C6 counterexample: the code never checks that the room is Idle.  On
`stPlaying` — whose single room already has status Playing — the host's
`start_game` succeeds: GAME_START goes to both players instead of any
failure reply, refuting "succeeds only for the host of a full Idle
room". -/
theorem start_game_succeeds_on_playing_room :
    alookup stPlaying.rooms 100 =
      some { name := "Alpha", host := "alice", players := ["alice", "bob"],
             status := RoomStatus.playing } ∧
    (handle_start_game stPlaying "alice" (fun _ => true) true 11001 "0.0.0.0").2 =
      [("alice", .gameStart "0.0.0.0" 11001), ("bob", .gameStart "0.0.0.0" 11001)] := by
  constructor
  · rfl
  · rfl

/-- Closed-input check of the start_game theorem: on `stFull` the host's
request launches on the first bindable port and reaches both players. -/
theorem start_game_launch_witness :
    (handle_start_game stFull "alice" (fun _ => true) true 11001 "0.0.0.0").1.sessions =
      stFull.sessions ∧
    alookup (handle_start_game stFull "alice" (fun _ => true) true 11001 "0.0.0.0").1.rooms
        100 =
      some { name := "Alpha", host := "alice", players := ["alice", "bob"],
             status := RoomStatus.playing } ∧
    (∀ rid2, rid2 ≠ 100 →
      alookup (handle_start_game stFull "alice" (fun _ => true) true 11001
          "0.0.0.0").1.rooms rid2 = alookup stFull.rooms rid2) ∧
    (handle_start_game stFull "alice" (fun _ => true) true 11001 "0.0.0.0").2 =
      [((["alice", "bob"] : List String).getD 0 "", .gameStart "0.0.0.0" 11001),
       ((["alice", "bob"] : List String).getD 1 "", .gameStart "0.0.0.0" 11001)] ∧
    (fun _ => true : Nat → Bool) 11001 = true ∧ 11001 ≤ 11001 ∧
    (∀ q, 11001 ≤ q → q < 11001 → (fun _ => true : Nat → Bool) q = false) :=
  (start_game_launch stFull "alice" (fun _ => true) true 11001 "0.0.0.0").2.2.2.2.2
    100 { name := "Alpha", host := "alice", players := ["alice", "bob"], status := .idle }
    11001 (by decide) (by decide) (by decide) (by decide) rfl rfl (by decide)

theorem dbCallsLockFree_replicate_send (n : Nat) (s r : Bool) (rest : List LEv) :
    dbCallsLockFree s r (List.replicate n .send ++ rest) = dbCallsLockFree s r rest := by
  induction n with
  | zero => rfl
  | succ m ih => simpa [List.replicate_succ, dbCallsLockFree] using ih

/-- C9 (amended): across every lobby operation, no registry mutex is
held across a persistence round-trip; client sends, however, do occur
while a lock is held (see the counterexample), so the claim holds only
for the persistence half of "external call". -/
theorem no_lock_across_persistence :
    (∀ a b c : Bool, dbCallsLockFree false false (loginEvents a b c) = true) ∧
    (∀ a b c : Bool, dbCallsLockFree false false (logoutEvents a b c) = true) ∧
    (∀ a b : Bool, dbCallsLockFree false false (createRoomEvents a b) = true) ∧
    (∀ a b c d e : Bool, ∀ n : Nat,
      dbCallsLockFree false false (joinRoomEvents a b c d e n) = true) ∧
    (∀ a b c d e f : Bool, dbCallsLockFree false false (inviteEvents a b c d e f) = true) ∧
    (∀ a b c d e f g : Bool,
      dbCallsLockFree false false (startGameEvents a b c d e f g) = true) := by
  refine ⟨by decide, by decide, by decide, ?_, by decide, by decide⟩
  intro a b c d e n
  cases a <;> cases b <;> cases c <;> cases d <;> cases e <;>
    simp [joinRoomEvents, dbCallsLockFree, dbCallsLockFree_replicate_send]

/-- C9 counterexample, refuting the claim as stated: in `join_room`'s
success path (lines 388-392) the ROOM_UPDATE broadcast happens inside
`with g_session_lock:`, so a client send occurs with the session mutex
held — here at a concrete two-member broadcast. -/
theorem send_under_lock_in_join_room : ¬ noLockAcrossExternalCall := fun h =>
  absurd (h.2.2.2.1 true false false false false 2) (by decide)

theorem countDbCreate_sendLoop (send_ok : Nat → Bool) (msg : GMsg) :
    ∀ clients : List (Option Nat),
      countDbCreate (gameOverSendLoop send_ok msg clients) = 0 := by
  intro clients
  induction clients with
  | nil => rfl
  | cons c rest ih =>
    cases c with
    | none => simpa [gameOverSendLoop] using ih
    | some k =>
      by_cases hk : send_ok k = true
      · simpa [gameOverSendLoop, hk, countDbCreate, isDbCreate, List.filter_cons] using ih
      · simp [gameOverSendLoop, hk, countDbCreate]

theorem countDbCreate_handle_game_end {β : Type} (clients : List (Option Nat))
    (p1 p2 : GState β) (w : Option String) (db_ok : Bool) (send_ok : Nat → Bool)
    (t_now : Nat) :
    countDbCreate (handle_game_end clients p1 p2 w db_ok send_ok t_now) = 1 := by
  unfold handle_game_end
  dsimp only
  rw [show ∀ (log : GameLog) (evs : List GSEv),
        countDbCreate (GSEv.dbCreate log :: evs) = countDbCreate evs + 1 from
      fun log evs => by simp [countDbCreate, isDbCreate, List.filter_cons]]
  rw [countDbCreate_sendLoop]

theorem countGameOverTo_sendLoop_le (send_ok : Nat → Bool) (w : Option String)
    (r1 r2 : PlayerResult) (conn : Nat) :
    ∀ clients : List (Option Nat),
      countGameOverTo (gameOverSendLoop send_ok (GMsg.gameOver w r1 r2) clients) conn ≤
        clients.count (some conn) := by
  intro clients
  induction clients with
  | nil => exact Nat.le_refl 0
  | cons c rest ih =>
    cases c with
    | none => simpa [gameOverSendLoop, List.count_cons] using ih
    | some k =>
      by_cases hk : send_ok k = true
      · by_cases hkc : k = conn
        · subst hkc
          simp only [gameOverSendLoop, hk, if_true, countGameOverTo, isGameOverTo,
            List.filter_cons, List.count_cons]
          simp only [countGameOverTo] at ih
          split <;> split <;> simp_all
        · simp only [gameOverSendLoop, hk, if_true, countGameOverTo, isGameOverTo,
            List.filter_cons, List.count_cons]
          simp only [countGameOverTo] at ih
          split <;> split <;> simp_all
      · simp [gameOverSendLoop, hk, countGameOverTo]

theorem countGameOverTo_sendLoop_all_ok (send_ok : Nat → Bool)
    (hok : ∀ c, send_ok c = true) (w : Option String) (r1 r2 : PlayerResult) (conn : Nat) :
    ∀ clients : List (Option Nat),
      countGameOverTo (gameOverSendLoop send_ok (GMsg.gameOver w r1 r2) clients) conn =
        clients.count (some conn) := by
  intro clients
  induction clients with
  | nil => rfl
  | cons c rest ih =>
    cases c with
    | none => simpa [gameOverSendLoop, List.count_cons] using ih
    | some k =>
      by_cases hkc : k = conn
      · subst hkc
        simpa [gameOverSendLoop, hok k, countGameOverTo, isGameOverTo, List.filter_cons,
          List.count_cons] using ih
      · simpa [gameOverSendLoop, hok k, countGameOverTo, isGameOverTo, List.filter_cons,
          List.count_cons, hkc] using ih

/-- C5 (amended): settlement builds exactly one GameLog and issues
exactly one GameLog.create request; the DB reply does not change
settlement's effects (a failed write is only logged); each connected
seat is sent GAME_OVER at most once — and exactly once per occurrence
of its connection when every send attempt succeeds, while a raising
send aborts the remaining sends (the source wraps the whole send loop
in one try); and a whole loop run settles at most once — the effects of
a settled outcome are those of the single trailing `handle_game_end`
call, even when both seats' game-over flags became true in the same
tick. -/
theorem settlement_exactly_once {β : Type} (ops : BoardOps β) (clients : List (Option Nat))
    (p1 p2 : GState β) (w : Option String) (db_ok : Bool) (send_ok : Nat → Bool)
    (t_now : Nat) (conn : Nat) (q1 q2 : GState β) (w0 : PyVar (Option String))
    (sched : List (List (Nat × String) × Bool)) :
    countDbCreate (handle_game_end clients p1 p2 w db_ok send_ok t_now) = 1 ∧
    countGameOverTo (handle_game_end clients p1 p2 w db_ok send_ok t_now) conn ≤
      clients.count (some conn) ∧
    ((∀ c, send_ok c = true) →
      countGameOverTo (handle_game_end clients p1 p2 w db_ok send_ok t_now) conn =
        clients.count (some conn)) ∧
    handle_game_end clients p1 p2 w true send_ok t_now =
      handle_game_end clients p1 p2 w false send_ok t_now ∧
    (∀ wv tr evs,
      game_loop_run ops clients db_ok send_ok t_now q1 q2 w0 sched = .settled wv tr evs →
      ∃ g1 g2 : GState β, evs = handle_game_end clients g1 g2 wv db_ok send_ok t_now ∧
        countDbCreate evs = 1) := by
  have hskip : ∀ (log : GameLog) (evs : List GSEv) (c : Nat),
      countGameOverTo (GSEv.dbCreate log :: evs) c = countGameOverTo evs c :=
    fun log evs c => by simp [countGameOverTo, isGameOverTo, List.filter_cons]
  refine ⟨countDbCreate_handle_game_end _ _ _ _ _ _ _, ?_, ?_, rfl, ?_⟩
  · unfold handle_game_end
    dsimp only
    rw [hskip]
    exact countGameOverTo_sendLoop_le _ _ _ _ _ _
  · intro hok
    unfold handle_game_end
    dsimp only
    rw [hskip]
    exact countGameOverTo_sendLoop_all_ok _ hok _ _ _ _ _
  · induction sched generalizing q1 q2 w0 with
    | nil =>
      intro wv tr evs h
      simp [game_loop_run] at h
    | cons entry rest ih =>
      intro wv tr evs h
      obtain ⟨batch, tick_due⟩ := entry
      rw [game_loop_run] at h
      cases hit : game_loop_iter ops clients q1 q2 w0 batch tick_due with
      | uncaught tr2 => rw [hit] at h; simp at h
      | ended wv2 p1a p2a tr2 rem =>
        rw [hit] at h
        simp only [LoopOutcome.settled.injEq] at h
        obtain ⟨hw, _, hevs⟩ := h
        subst hw
        exact ⟨p1a, p2a, hevs.symm, hevs ▸ countDbCreate_handle_game_end _ _ _ _ _ _ _⟩
      | next p1a p2a wa tr2 =>
        rw [hit] at h
        dsimp only at h
        cases hrun : game_loop_run ops clients db_ok send_ok t_now p1a p2a wa rest with
        | crashed t => rw [hrun] at h; simp [LoopOutcome.withTrace] at h
        | settled w3 t3 e3 =>
          rw [hrun] at h
          simp only [LoopOutcome.withTrace, LoopOutcome.settled.injEq] at h
          obtain ⟨hw, _, hevs⟩ := h
          obtain ⟨g1, g2, hg, hc⟩ := ih p1a p2a wa w3 t3 e3 hrun
          exact ⟨g1, g2, by rw [← hevs, hg, hw], by rw [← hevs]; exact hc⟩
        | running r1 r2 r3 r4 => rw [hrun] at h; simp [LoopOutcome.withTrace] at h

/-- C5 counterexample, refuting "GAME_OVER sent to each connected seat
exactly once" as stated: with the send to connection 3 raising (its
socket closed), connection 4 — a connected seat, listed once — receives
zero GAME_OVER messages, because the single try around the send loop
aborts on the first failure. -/
theorem game_over_not_exactly_once :
    countGameOverTo
      (handle_game_end [some 3, some 4] gOver gInit (some "P2") false
        (fun conn => decide (conn ≠ 3)) 99) 4 = 0 ∧
    ([some 3, some 4] : List (Option Nat)).count (some 4) = 1 :=
  ⟨rfl, rfl⟩

theorem drain_inputs_disconnect {β : Type} (ops : BoardOps β) :
    ∀ (pre : List (Nat × String)) (pid : Nat) (post : List (Nat × String))
      (p1 p2 : GState β) (w : PyVar (Option String)),
      (∀ x ∈ pre, x.2 ≠ "DISCONNECT") →
      ∃ q1 q2 : GState β,
        drain_inputs ops p1 p2 w (pre ++ (pid, "DISCONNECT") :: post) =
          ⟨{ q1 with game_over := true }, { q2 with game_over := true },
           .bound (some (if pid = 0 then "P2" else "P1")), inputEvents pre, post⟩ := by
  intro pre
  induction pre with
  | nil =>
    intro pid post p1 p2 w _
    refine ⟨p1, p2, ?_⟩
    rw [List.nil_append, drain_inputs]
    simp [inputEvents]
  | cons x rest ih =>
    intro pid post p1 p2 w h
    obtain ⟨q, a⟩ := x
    have hx : a ≠ "DISCONNECT" := h (q, a) (List.mem_cons_self _ _)
    rw [List.cons_append, drain_inputs]
    rw [if_neg hx]
    by_cases h0 : q = 0
    · subst h0
      obtain ⟨q1, q2, hq⟩ :=
        ih pid post (process_input ops p1 a) p2 w fun y hy => h y (List.mem_cons_of_mem _ hy)
      refine ⟨q1, q2, ?_⟩
      rw [if_pos rfl, hq]
      simp [inputEvents, List.filterMap_cons]
    · by_cases h1 : q = 1
      · subst h1
        obtain ⟨q1, q2, hq⟩ :=
          ih pid post p1 (process_input ops p2 a) w fun y hy => h y (List.mem_cons_of_mem _ hy)
        refine ⟨q1, q2, ?_⟩
        rw [if_neg h0, if_pos rfl, hq]
        simp [inputEvents, List.filterMap_cons]
      · obtain ⟨q1, q2, hq⟩ :=
          ih pid post p1 p2 w fun y hy => h y (List.mem_cons_of_mem _ hy)
        refine ⟨q1, q2, ?_⟩
        rw [if_neg h0, if_neg h1, hq]
        simp [inputEvents, List.filterMap_cons, h0, h1]

/-- C2 (amended): when the loop dequeues a Disconnected marker for seat
P1, the match ends in that very iteration: the loop breaks before any
tick, the inputs queued after the marker are never applied, and
`handle_game_end` runs with the other seat ("P2") as winner.  GAME_OVER
sends are attempted in seat order, so the remaining connection receives
GAME_OVER{winner:"P2"} when the attempts do not raise; but a raising
send — typically the disconnected seat's already-closed socket, which
comes first — aborts the remaining sends and the surviving seat then
receives nothing (single try around the send loop). -/
theorem disconnect_ends_match {β : Type} (ops : BoardOps β) (c1 c2 : Nat)
    (p1 p2 : GState β) (pre post : List (Nat × String)) (tick_due : Bool)
    (db_ok : Bool) (send_ok : Nat → Bool) (t_now : Nat)
    (restSched : List (List (Nat × String) × Bool))
    (hpre : ∀ x ∈ pre, x.2 ≠ "DISCONNECT") :
    ∃ g1 g2 : GState β,
      game_loop ops [some c1, some c2] db_ok send_ok t_now p1 p2
          ((pre ++ (0, "DISCONNECT") :: post, tick_due) :: restSched) =
        .settled (some "P2") (inputEvents pre)
          (handle_game_end [some c1, some c2] g1 g2 (some "P2") db_ok send_ok t_now) ∧
      g1.game_over = true ∧ g2.game_over = true ∧
      (send_ok c1 = true → send_ok c2 = true →
        GSEv.sent c1 (GMsg.gameOver (some "P2")
            ⟨"Player1", g1.score, g1.lines_cleared⟩
            ⟨"Player2", g2.score, g2.lines_cleared⟩) ∈
          handle_game_end [some c1, some c2] g1 g2 (some "P2") db_ok send_ok t_now ∧
        GSEv.sent c2 (GMsg.gameOver (some "P2")
            ⟨"Player1", g1.score, g1.lines_cleared⟩
            ⟨"Player2", g2.score, g2.lines_cleared⟩) ∈
          handle_game_end [some c1, some c2] g1 g2 (some "P2") db_ok send_ok t_now) ∧
      (send_ok c1 = false →
        countGameOverTo
          (handle_game_end [some c1, some c2] g1 g2 (some "P2") db_ok send_ok t_now)
          c2 = 0) := by
  obtain ⟨q1, q2, hdrain⟩ := drain_inputs_disconnect ops pre 0 post p1 p2 .unbound hpre
  refine ⟨{ q1 with game_over := true }, { q2 with game_over := true },
    ?_, rfl, rfl, ?_, ?_⟩
  · rw [game_loop, game_loop_run]
    unfold game_loop_iter
    rw [hdrain]
    dsimp only
    rw [if_pos (by decide)]
    simp
  · intro h1 h2
    simp [handle_game_end, gameOverSendLoop, h1, h2]
  · intro h1
    simp [handle_game_end, gameOverSendLoop, h1, countGameOverTo, isGameOverTo,
      List.filter_cons]

/-- Closed-input check of the disconnect theorem: one pre-marker input,
one post-marker input, two connections, all sends succeeding. -/
theorem disconnect_ends_match_witness :
    ∃ g1 g2 : GState Nat,
      game_loop natOps [some 0, some 1] true (fun _ => true) 1700 gInit gInit
          (([(1, "MOVE_LEFT")] ++ (0, "DISCONNECT") :: [(1, "ROTATE")], true) :: []) =
        .settled (some "P2") (inputEvents [(1, "MOVE_LEFT")])
          (handle_game_end [some 0, some 1] g1 g2 (some "P2") true (fun _ => true) 1700) ∧
      g1.game_over = true ∧ g2.game_over = true ∧
      ((fun _ => true : Nat → Bool) 0 = true → (fun _ => true : Nat → Bool) 1 = true →
        GSEv.sent 0 (GMsg.gameOver (some "P2")
            ⟨"Player1", g1.score, g1.lines_cleared⟩
            ⟨"Player2", g2.score, g2.lines_cleared⟩) ∈
          handle_game_end [some 0, some 1] g1 g2 (some "P2") true (fun _ => true) 1700 ∧
        GSEv.sent 1 (GMsg.gameOver (some "P2")
            ⟨"Player1", g1.score, g1.lines_cleared⟩
            ⟨"Player2", g2.score, g2.lines_cleared⟩) ∈
          handle_game_end [some 0, some 1] g1 g2 (some "P2") true (fun _ => true) 1700) ∧
      ((fun _ => true : Nat → Bool) 0 = false →
        countGameOverTo
          (handle_game_end [some 0, some 1] g1 g2 (some "P2") true (fun _ => true) 1700)
          1 = 0) :=
  disconnect_ends_match natOps 0 1 gInit gInit [(1, "MOVE_LEFT")] [(1, "ROTATE")]
    true true (fun _ => true) 1700 [] (by decide)

/-- C2 counterexample, refuting "emits GAME_OVER with winner P2 to the
remaining connection" as stated: at a concrete P1 disconnect whose
socket (closed by its receiver thread) makes the first GAME_OVER send
raise, the single try around the send loop aborts and the remaining
connection 1 — a connected seat, listed once — receives no GAME_OVER at
all. -/
theorem game_over_skipped_for_survivor :
    game_loop natOps [some 0, some 1] true (fun conn => decide (conn ≠ 0)) 1700 gInit gInit
        [([(0, "DISCONNECT")], true)] =
      .settled (some "P2") []
        (handle_game_end [some 0, some 1] gOver gOver (some "P2") true
          (fun conn => decide (conn ≠ 0)) 1700) ∧
    countGameOverTo
      (handle_game_end [some 0, some 1] gOver gOver (some "P2") true
        (fun conn => decide (conn ≠ 0)) 1700) 1 = 0 ∧
    ([some 0, some 1] : List (Option Nat)).count (some 1) = 1 :=
  ⟨rfl, rfl, rfl⟩

/-- C3 (the code evaluated at its failing input): the moment the first
connection is accepted, building its WELCOME reads the local `game_seed`
(line 288) — but `game_seed` is assigned only after both players have
connected (line 312), so `main` raises UnboundLocalError and no WELCOME
is ever sent.  The last conjuncts show the claimed behaviour is exactly
what the minimally fixed ordering produces: P1 to the first connection,
P2 to the second, the same seed in both WELCOMEs, both engines
constructed from that same seed. -/
theorem welcome_seed_read_before_assignment :
    game_server_main natOps [7, 8] 42 = .error "UnboundLocalError: game_seed" ∧
    accept_players PyVar.unbound 0 [7] = .error "UnboundLocalError: game_seed" ∧
    game_server_main_intended natOps [7, 8] 42 =
      .ok ([(7, .welcome "P1" 42), (8, .welcome "P2" 42)],
        TetrisGame_init natOps 42, TetrisGame_init natOps 42) ∧
    (∀ (s c1 c2 : Nat) (β : Type) (ops : BoardOps β),
      game_server_main_intended ops [c1, c2] s =
        .ok ([(c1, .welcome "P1" s), (c2, .welcome "P2" s)],
          TetrisGame_init ops s, TetrisGame_init ops s)) :=
  ⟨rfl, rfl, rfl, fun _ _ _ _ _ => rfl⟩

/-- C10 (the code evaluated at its failing input): in an iteration that
dequeued no Disconnected marker, `if winner:` (line 196) raises
UnboundLocalError before the end-condition check is ever reached — so
with both game-over flags true the loop crashes rather than declaring a
winner.  The last conjunct shows that with `winner` initialised to
`None` (the clear intent of `if winner is None:` at line 213), the check
tests P1's flag first and a simultaneous game-over yields "P2". -/
theorem simultaneous_game_over_crashes :
    game_loop_iter natOps [some 0, some 1] gOver gOver .unbound [] true = .uncaught [] ∧
    game_loop natOps [some 0, some 1] true (fun _ => true) 1700 gOver gOver [([], true)] =
      .crashed [] ∧
    game_loop_iter natOps [some 0, some 1] gOver gOver (.bound none) [] false =
      .ended (some "P2") gOver gOver [] [] :=
  ⟨rfl, rfl, rfl⟩

/-- C4 (the code evaluated at its failing input): an iteration that
dequeued no Disconnected marker raises UnboundLocalError at
`if winner:` (line 196) before the gravity/broadcast section, so the
actual loop never ticks and never broadcasts a snapshot — though inputs
drained from the queue are applied first.  The last conjunct exhibits
the intended iteration (winner initialised to `None`): the queued input
is applied to its seat's engine before the tick, both engines tick, and
the identical post-tick snapshot goes to both connections, in that
order. -/
theorem snapshot_only_after_tick_unreachable :
    game_loop_iter natOps [some 0, some 1] gInit gInit .unbound [(0, "MOVE_LEFT")] true =
      .uncaught [.applied 0 "MOVE_LEFT"] ∧
    game_loop natOps [some 0, some 1] true (fun _ => true) 1700 gInit gInit
        [([(0, "MOVE_LEFT")], true)] =
      .crashed [.applied 0 "MOVE_LEFT"] ∧
    game_loop_iter natOps [some 7, some 9] gInit gInit (.bound none)
        [(0, "MOVE_LEFT")] true =
      .next (natOps.tick (process_input natOps gInit "MOVE_LEFT")) (natOps.tick gInit)
        (.bound none)
        [.applied 0 "MOVE_LEFT", .ticked,
         .snapshotSent 7 (natOps.tick (process_input natOps gInit "MOVE_LEFT"))
           (natOps.tick gInit),
         .snapshotSent 9 (natOps.tick (process_input natOps gInit "MOVE_LEFT"))
           (natOps.tick gInit)] :=
  ⟨rfl, rfl, rfl⟩

end NPHW2
